import Mathlib

/-!
Verification of the LISA SDK streaming response client
(`lisa-sdk/lisapy/main.py`, methods `generate_stream` and
`agenerate_stream`).

The embedding works over decoded text lines (`String`); each Python
string method used by the source is modelled by a small Lean function
over the underlying character list, and `json.loads` is modelled by an
executable recursive-descent parser `jsonLoads` covering the JSON
fragment the protocol uses (objects, arrays, strings with the common
escapes, integer numerals, `true`/`false`/`null`).  Floating point
numerals and `\u` escapes are outside the modelled fragment; no claim
depends on them.
-/

/-! ## Python string primitives used by the source -/

/-- Models Python `s.startswith(marker)`. -/
def pyStartswith (s marker : String) : Bool :=
  marker.data.isPrefixOf s.data

/-- Models Python `s.removeprefix(marker)`: drops one leading occurrence
of `marker` when present, otherwise returns `s` unchanged. -/
def pyRemovePrefixStr (s marker : String) : String :=
  if marker.data.isPrefixOf s.data then String.mk (s.data.drop marker.data.length)
  else s

/-- Models Python `s.rstrip(chars)`: removes every trailing character of
`s` that occurs in the character set `chars` (Python treats the argument
as a set of characters, not as a suffix). -/
def pyRstrip (s chars : String) : String :=
  String.mk ((s.data.reverse.dropWhile (fun c => chars.data.contains c)).reverse)

/-- Models Python `needle in haystack` for two strings: substring test. -/
def pyInStr (needle : List Char) : List Char → Bool
  | [] => needle.isEmpty
  | c :: rest => needle.isPrefixOf (c :: rest) || pyInStr needle rest

/-! ## JSON values and the model of `json.loads` -/

/-- JSON values as decoded by `json.loads`: objects keep their members as
an association list in insertion order (lookup resolves duplicate keys
to the last binding, as a Python dict does).  Numbers are modelled as
integers: the payload schema only carries integer counts. -/
inductive Json where
  | null
  | bool (b : Bool)
  | num (n : Int)
  | str (s : String)
  | arr (elems : List Json)
  | obj (fields : List (String × Json))

/-- Python dict lookup over the member list of a JSON object: the last
binding of the key wins (later duplicate keys override earlier ones). -/
def objLookup (kvs : List (String × Json)) (k : String) : Option Json :=
  match kvs with
  | [] => none
  | kv :: rest =>
    match objLookup rest k with
    | some v => some v
    | none => if kv.1 == k then some kv.2 else none

def lbraceChar : Char := Char.ofNat 123

def rbraceChar : Char := Char.ofNat 125

/-- JSON insignificant whitespace. -/
def skipWs : List Char → List Char
  | [] => []
  | c :: cs => if c == ' ' || c == '\t' || c == '\n' || c == '\r' then skipWs cs else c :: cs

/-- Single-character JSON string escapes (`\uXXXX` is outside the
modelled fragment). -/
def escChar : Char → Option Char
  | '"' => some '"'
  | '\\' => some '\\'
  | '/' => some '/'
  | 'b' => some (Char.ofNat 8)
  | 'f' => some (Char.ofNat 12)
  | 'n' => some '\n'
  | 'r' => some '\r'
  | 't' => some '\t'
  | _ => none

/-- Parses the rest of a JSON string after the opening quote, returning
the content and the remainder after the closing quote.  Raw control
characters are rejected, as `json.loads` does in strict mode. -/
def parseStringRest : List Char → Option (List Char × List Char)
  | [] => none
  | '"' :: rest => some ([], rest)
  | '\\' :: e :: rest =>
    match escChar e with
    | none => none
    | some c =>
      match parseStringRest rest with
      | none => none
      | some (s, r) => some (c :: s, r)
  | c :: rest =>
    if c.toNat < 32 then none
    else
      match parseStringRest rest with
      | none => none
      | some (s, r) => some (c :: s, r)

def takeDigits : List Char → List Char × List Char
  | [] => ([], [])
  | c :: cs =>
    if c.isDigit then
      let p := takeDigits cs
      (c :: p.1, p.2)
    else ([], c :: cs)

def natOfDigits (ds : List Char) : Nat :=
  ds.foldl (fun a c => a * 10 + (c.toNat - 48)) 0

/-- Integer numeral after an optional sign: nonempty digit run, no
leading zero on a multi-digit numeral, and no fraction or exponent
(floating point is outside the modelled fragment). -/
def parseIntAfterSign (neg : Bool) (cs : List Char) : Option (Json × List Char) :=
  match takeDigits cs with
  | ([], _) => none
  | (d :: ds, rest) =>
    if d == '0' && !ds.isEmpty then none
    else if (match rest with
             | c :: _ => c == '.' || c == 'e' || c == 'E'
             | [] => false) then none
    else
      let n : Int := Int.ofNat (natOfDigits (d :: ds))
      some (Json.num (if neg then -n else n), rest)

def parseNumber : List Char → Option (Json × List Char)
  | '-' :: cs => parseIntAfterSign true cs
  | cs => parseIntAfterSign false cs

/-- Object members after the opening brace, accumulating parsed members;
`pv` parses one nested value.  Fuel bounds the number of members. -/
def parseMembersF (pv : List Char → Option (Json × List Char)) :
    Nat → List Char → List (String × Json) → Option (Json × List Char)
  | 0, _, _ => none
  | mf + 1, cs, acc =>
    match skipWs cs with
    | '"' :: r0 =>
      match parseStringRest r0 with
      | none => none
      | some (k, r1) =>
        match skipWs r1 with
        | ':' :: r2 =>
          match pv r2 with
          | none => none
          | some (v, r3) =>
            match skipWs r3 with
            | ',' :: r4 => parseMembersF pv mf r4 (acc ++ [(String.mk k, v)])
            | c :: r4 =>
              if c == rbraceChar then some (Json.obj (acc ++ [(String.mk k, v)]), r4)
              else none
            | [] => none
        | _ => none
    | _ => none

/-- Array elements after the opening bracket. -/
def parseElemsF (pv : List Char → Option (Json × List Char)) :
    Nat → List Char → List Json → Option (Json × List Char)
  | 0, _, _ => none
  | ef + 1, cs, acc =>
    match pv cs with
    | none => none
    | some (v, r1) =>
      match skipWs r1 with
      | ',' :: r2 => parseElemsF pv ef r2 (acc ++ [v])
      | ']' :: r2 => some (Json.arr (acc ++ [v]), r2)
      | _ => none

/-- One JSON value, given a parser `pv` for strictly deeper nesting. -/
def parseValueAux (pv : List Char → Option (Json × List Char)) (cs : List Char) :
    Option (Json × List Char) :=
  match skipWs cs with
  | [] => none
  | c :: rest =>
    if c == lbraceChar then
      match skipWs rest with
      | c2 :: r2 =>
        if c2 == rbraceChar then some (Json.obj [], r2)
        else parseMembersF pv (rest.length + 1) rest []
      | [] => none
    else if c == '[' then
      match skipWs rest with
      | ']' :: r2 => some (Json.arr [], r2)
      | _ => parseElemsF pv (rest.length + 1) rest []
    else if c == '"' then
      match parseStringRest rest with
      | none => none
      | some (s, r1) => some (Json.str (String.mk s), r1)
    else
      match c :: rest with
      | 't' :: 'r' :: 'u' :: 'e' :: r => some (Json.bool true, r)
      | 'f' :: 'a' :: 'l' :: 's' :: 'e' :: r => some (Json.bool false, r)
      | 'n' :: 'u' :: 'l' :: 'l' :: r => some (Json.null, r)
      | cs2 => parseNumber cs2

/-- JSON value parser; the fuel bounds the nesting depth.  Defined by
`Nat.rec` so that it is structurally recursive and computes inside the
kernel. -/
def parseValue (fuel : Nat) : List Char → Option (Json × List Char) :=
  Nat.rec (motive := fun _ => List Char → Option (Json × List Char))
    (fun _ => none) (fun _ ih => parseValueAux ih) fuel

/-- Models `json.loads`: parse one value and reject trailing data, as
CPython raises `Extra data` when non-whitespace input remains.  `none`
models a raised `json.JSONDecodeError`. -/
def jsonLoads (s : String) : Option Json :=
  match parseValue (s.data.length + 1) s.data with
  | none => none
  | some (v, rest) => if (skipWs rest).isEmpty then some v else none





/-! ## Failures observable by the caller of a streaming call -/

/-- Failures a streaming call can raise.  `mapped status` is the typed
failure produced by the Error Mapper: `parse_error` lives in
`lisapy/errors.py`, which is not under `src/`; modelled from the spec,
which only fixes that the mapper is a function of the status code and
response, so the model records the status it was invoked on.
`attributeError a` models a Python `AttributeError` for a missing
attribute `a`; `jsonDecodeError` a `json.JSONDecodeError`; `keyError k`
a dict `KeyError`; `typeError` a `TypeError` from `in` or indexing on a
non-container; `validationError` a pydantic validation failure when a
payload value does not fit the declared field type. -/
inductive StreamErr where
  | mapped (status : Nat)
  | attributeError (attr : String)
  | jsonDecodeError
  | keyError (key : String)
  | typeError
  | validationError
deriving DecidableEq

/-- Modelled from the spec: `StreamingResponse` is declared in
`lisapy/types.py`, which is not under `src/`.  Spec section 3 fixes the
two frame shapes: a TokenFrame carries `token_text` (a string) with
`finish_reason` and `generated_tokens` absent, and a FinalFrame carries
`finish_reason` (a string) and `generated_tokens` (an integer) with
`token_text` empty.  Both shapes are one pydantic model in the source,
so the model is one structure with the final-frame fields optional and
absent by default. -/
structure StreamingResponse where
  token : String
  finish_reason : Option String := none
  generated_tokens : Option Int := none
deriving DecidableEq

/-- A frame is a FinalFrame exactly when `finish_reason` is present. -/
def StreamingResponse.isFinal (r : StreamingResponse) : Bool :=
  r.finish_reason.isSome

/-! ## Python dynamic operations on decoded JSON values -/

/-- Models Python `needle in j` for a decoded JSON value `j`: key test
on a dict, substring test on a str, element test on a list, and a
`TypeError` on the remaining non-container values. -/
def pyContains (needle : String) : Json → Except StreamErr Bool
  | Json.obj kvs => Except.ok (kvs.any (fun kv => kv.1 == needle))
  | Json.str s => Except.ok (pyInStr needle.data s.data)
  | Json.arr xs =>
    Except.ok (xs.any (fun x =>
      match x with
      | Json.str s => s == needle
      | _ => false))
  | _ => Except.error StreamErr.typeError

/-- Models Python `j[k]` for a decoded JSON value `j` and a string key
`k`: dict lookup raising `KeyError` when the key is missing, and a
`TypeError` on every non-dict value (string and list indices must be
integers). -/
def pyGetItem (j : Json) (k : String) : Except StreamErr Json :=
  match j with
  | Json.obj kvs =>
    match objLookup kvs k with
    | some v => Except.ok v
    | none => Except.error (StreamErr.keyError k)
  | _ => Except.error StreamErr.typeError

/-! ## The two line decoders

`generate_stream` (main.py lines 259-275) and `agenerate_stream`
(main.py lines 315-330) duplicate the same line-to-frame logic; the two
definitions below keep that duplication, one per source occurrence, so
that their equivalence is a statement and not an artifact of sharing.

Source of the per-line body, identical in both methods:

  if resp_line == "b\n": continue
  payload = resp_line.decode("utf-8")
  if payload.startswith("data:"):
      json_payload = json.loads(payload.removeprefix("data:").rstrip("/n"))
      if "finishReason" in json_payload:
          yield StreamingResponse(token="",
              finish_reason=json_payload["finishReason"],
              generated_tokens=json_payload["generatedTokens"])
      else:
          yield StreamingResponse(token=json_payload["token"]["text"])

Lines are modelled after the utf-8 decode, so `resp_line` is a
`String`.  The first comparison in the source compares the raw bytes
object to the text literal "b\n"; in Python a bytes value never equals
a str, so the branch never fires, but it is kept as written: for the
one line it could match, "b\n", the data-marker test fails as well, so
both readings produce no frame.  `Except.ok none` is "no frame",
`Except.ok (some f)` is "yield f", `Except.error e` is "raise e". -/

/-- Line decoder of the blocking path `generate_stream`. -/
def decodeLine_sync (resp_line : String) : Except StreamErr (Option StreamingResponse) :=
  if resp_line = "b\n" then Except.ok none
  else
    let payload := resp_line
    if pyStartswith payload "data:" then
      match jsonLoads (pyRstrip (pyRemovePrefixStr payload "data:") "/n") with
      | none => Except.error StreamErr.jsonDecodeError
      | some json_payload =>
        match pyContains "finishReason" json_payload with
        | Except.error e => Except.error e
        | Except.ok true =>
          match pyGetItem json_payload "finishReason" with
          | Except.error e => Except.error e
          | Except.ok fr =>
            match pyGetItem json_payload "generatedTokens" with
            | Except.error e => Except.error e
            | Except.ok gt =>
              match fr, gt with
              | Json.str r, Json.num g =>
                Except.ok (some { token := "", finish_reason := some r, generated_tokens := some g })
              | _, _ => Except.error StreamErr.validationError
        | Except.ok false =>
          match pyGetItem json_payload "token" with
          | Except.error e => Except.error e
          | Except.ok tokObj =>
            match pyGetItem tokObj "text" with
            | Except.error e => Except.error e
            | Except.ok txt =>
              match txt with
              | Json.str t => Except.ok (some { token := t })
              | _ => Except.error StreamErr.validationError
    else Except.ok none

/-- Line decoder of the non-blocking path `agenerate_stream`; the source
duplicates the body of the blocking decoder verbatim. -/
def decodeLine_async (resp_line : String) : Except StreamErr (Option StreamingResponse) :=
  if resp_line = "b\n" then Except.ok none
  else
    let payload := resp_line
    if pyStartswith payload "data:" then
      match jsonLoads (pyRstrip (pyRemovePrefixStr payload "data:") "/n") with
      | none => Except.error StreamErr.jsonDecodeError
      | some json_payload =>
        match pyContains "finishReason" json_payload with
        | Except.error e => Except.error e
        | Except.ok true =>
          match pyGetItem json_payload "finishReason" with
          | Except.error e => Except.error e
          | Except.ok fr =>
            match pyGetItem json_payload "generatedTokens" with
            | Except.error e => Except.error e
            | Except.ok gt =>
              match fr, gt with
              | Json.str r, Json.num g =>
                Except.ok (some { token := "", finish_reason := some r, generated_tokens := some g })
              | _, _ => Except.error StreamErr.validationError
        | Except.ok false =>
          match pyGetItem json_payload "token" with
          | Except.error e => Except.error e
          | Except.ok tokObj =>
            match pyGetItem tokObj "text" with
            | Except.error e => Except.error e
            | Except.ok txt =>
              match txt with
              | Json.str t => Except.ok (some { token := t })
              | _ => Except.error StreamErr.validationError
    else Except.ok none

/-! ## The generator loops and the two public operations -/

/-- The yield loop shared by both generator bodies: lines are consumed
in arrival order; a decoded frame is yielded at once, a filler line
yields nothing, and a raised failure ends the iteration there, so later
lines are never consumed.  Returns the frames the caller received, in
order, and the failure that ended the iteration, if any. -/
def processLines (dec : String → Except StreamErr (Option StreamingResponse)) :
    List String → List StreamingResponse × Option StreamErr
  | [] => ([], none)
  | l :: ls =>
    match dec l with
    | Except.error e => ([], some e)
    | Except.ok none => processLines dec ls
    | Except.ok (some f) =>
      let p := processLines dec ls
      (f :: p.1, p.2)

/-- `generate_stream` (main.py lines 258-277) observed by its caller:
on status 200 the response lines are decoded and yielded; otherwise the
Error Mapper is invoked on the status code and response and its typed
failure is raised before any decoding. -/
def generate_stream (status_code : Nat) (lines : List String) :
    List StreamingResponse × Option StreamErr :=
  if status_code = 200 then processLines decodeLine_sync lines
  else ([], some (StreamErr.mapped status_code))

/-- `agenerate_stream` (main.py lines 310-330) observed by its caller:
on a non-200 status the source evaluates `response.status_code` as the
first argument of `parse_error`, but an aiohttp `ClientResponse` has no
`status_code` attribute (the field is named `status`, which the guard
itself reads), so an `AttributeError` is raised before `parse_error` is
ever entered; the adjacent source comment `TODO this probably won't
work` records this.  On status 200 the lines are decoded as in the
blocking path. -/
def agenerate_stream (status : Nat) (lines : List String) :
    List StreamingResponse × Option StreamErr :=
  if status ≠ 200 then ([], some (StreamErr.attributeError "status_code"))
  else processLines decodeLine_async lines

/-! ## Vocabulary for the stream-shape claims -/

/-- `true` when no element of the frame list is followed by a further
frame once a FinalFrame has appeared: zero or more TokenFrames, then at
most one FinalFrame, and nothing after it. -/
def noFrameAfterFinal : List StreamingResponse → Bool
  | [] => true
  | [_] => true
  | f :: g :: fs => !f.isFinal && noFrameAfterFinal (g :: fs)

/-- `true` when decoding the line under `dec` yields a FinalFrame. -/
def yieldsFinal (dec : String → Except StreamErr (Option StreamingResponse)) (l : String) : Bool :=
  match dec l with
  | Except.ok (some f) => f.isFinal
  | _ => false

/-! ## Concrete server lines used by witnesses and counterexamples -/

def lineTokHi : String := "data:\x7b\"token\":\x7b\"text\":\"Hi\"\x7d\x7d"

def lineTokBang : String := "data:\x7b\"token\":\x7b\"text\":\"!\"\x7d\x7d"

def lineFin : String := "data:\x7b\"finishReason\":\"stop\",\"generatedTokens\":2\x7d"

def lineFinNoCount : String := "data:\x7b\"finishReason\":\"stop\"\x7d"

def lineBadJson : String := "data:\x7bbad json"

def lineTokTrailN : String := "data:\x7b\"token\":\x7b\"text\":\"A\"\x7d\x7dn"






/-! ## Helper lemmas -/

/-- The two line decoders are definitionally equal: the source
duplicates the body verbatim across the blocking and non-blocking
methods. -/
lemma decode_paths_eq (resp_line : String) :
    decodeLine_sync resp_line = decodeLine_async resp_line := rfl

/-- Dict lookup succeeds exactly when the membership test succeeds. -/
lemma objLookup_isSome_eq_any (kvs : List (String × Json)) (k : String) :
    (objLookup kvs k).isSome = kvs.any (fun kv => kv.1 == k) := by
  induction kvs with
  | nil => rfl
  | cons kv rest ih =>
    simp only [objLookup, List.any_cons]
    cases hrest : objLookup rest k with
    | some v =>
      rw [hrest] at ih
      simp [← ih]
    | none =>
      rw [hrest] at ih
      by_cases hk : kv.1 == k
      · simp [hk]
      · simp [hk, ← ih]

/-- A line that does not start with the data marker decodes to no frame
(the sync decoder). -/
lemma decode_sync_filler (resp_line : String)
    (hs : pyStartswith resp_line "data:" = false) :
    decodeLine_sync resp_line = Except.ok none := by
  unfold decodeLine_sync
  by_cases hb : resp_line = "b\n"
  · rw [if_pos hb]
  · rw [if_neg hb]
    simp [hs]

/-- A data line is never the literal "b\n". -/
lemma data_line_ne_b (resp_line : String)
    (hs : pyStartswith resp_line "data:" = true) : resp_line ≠ "b\n" := by
  intro he
  rw [he] at hs
  exact absurd hs (by decide)

/-- A data line whose processed remainder fails to parse raises the
JSON decode failure (the sync decoder). -/
lemma decode_sync_badJson (resp_line : String)
    (hs : pyStartswith resp_line "data:" = true)
    (hj : jsonLoads (pyRstrip (pyRemovePrefixStr resp_line "data:") "/n") = none) :
    decodeLine_sync resp_line = Except.error StreamErr.jsonDecodeError := by
  unfold decodeLine_sync
  rw [if_neg (data_line_ne_b resp_line hs)]
  simp [hs, hj]

/-- Splitting the yield loop at an error-free prefix. -/
lemma processLines_append (dec : String → Except StreamErr (Option StreamingResponse))
    (pre rest : List String) (h : (processLines dec pre).2 = none) :
    processLines dec (pre ++ rest) =
      ((processLines dec pre).1 ++ (processLines dec rest).1, (processLines dec rest).2) := by
  induction pre with
  | nil => simp [processLines]
  | cons l pre ih =>
    cases hd : dec l with
    | error e => simp [processLines, hd] at h
    | ok o =>
      cases o with
      | none =>
        simp only [processLines, hd] at h ⊢
        exact ih h
      | some f =>
        simp only [processLines, hd] at h ⊢
        simp only [List.append_eq]
        rw [ih h]
        rfl

lemma noFrameAfterFinal_cons (f : StreamingResponse) (fs : List StreamingResponse)
    (hf : f.isFinal = false ∨ fs = []) (h : noFrameAfterFinal fs = true) :
    noFrameAfterFinal (f :: fs) = true := by
  cases fs with
  | nil => rfl
  | cons g gs =>
    rcases hf with hf | hf
    · simp [noFrameAfterFinal, hf, h]
    · exact absurd hf (by simp)

/-- If no line before the last yields a FinalFrame under `dec`, the
frames the loop produces never continue past a FinalFrame. -/
lemma processLines_wf (dec : String → Except StreamErr (Option StreamingResponse)) :
    ∀ lines : List String,
      (∀ l ∈ lines.dropLast, yieldsFinal dec l = false) →
      noFrameAfterFinal (processLines dec lines).1 = true := by
  intro lines
  induction lines with
  | nil => intro _; rfl
  | cons l ls ih =>
    intro h
    cases ls with
    | nil =>
      cases hd : dec l with
      | error e => simp [processLines, hd, noFrameAfterFinal]
      | ok o =>
        cases o with
        | none => simp [processLines, hd, noFrameAfterFinal]
        | some f => simp [processLines, hd, noFrameAfterFinal]
    | cons l2 ls2 =>
      have hdl : (l :: l2 :: ls2).dropLast = l :: (l2 :: ls2).dropLast := rfl
      rw [hdl] at h
      have hl : yieldsFinal dec l = false := h l (List.mem_cons_self l _)
      have h2 : ∀ x ∈ (l2 :: ls2).dropLast, yieldsFinal dec x = false :=
        fun x hx => h x (List.mem_cons_of_mem l hx)
      cases hd : dec l with
      | error e => simp [processLines, hd, noFrameAfterFinal]
      | ok o =>
        cases o with
        | none =>
          simp only [processLines, hd]
          exact ih h2
        | some f =>
          have hff : f.isFinal = false := by
            unfold yieldsFinal at hl
            rw [hd] at hl
            exact hl
          simp only [processLines, hd]
          exact noFrameAfterFinal_cons f _ (Or.inl hff) (ih h2)

/-! ## Claim C1 -/

/-- Claim C1, counterexample: the claimed invariant — zero or more
TokenFrames followed by at most one FinalFrame, nothing after a
FinalFrame — fails as stated over every sequence of server lines.  The
loop body of both methods has no break after yielding the finish frame,
so a server that sends a second finish-shaped line after the first
makes both paths yield a frame after a FinalFrame. -/
theorem c1_counterexample :
    noFrameAfterFinal (generate_stream 200 [lineFin, lineFin]).1 = false ∧
    noFrameAfterFinal (agenerate_stream 200 [lineFin, lineFin]).1 = false :=
  ⟨rfl, rfl⟩

/-- Claim C1, amended: for every call of `generate_stream` or
`agenerate_stream` and every sequence of server lines in which no line
before the last yields a finish frame (a well-behaved server sends its
finish event as the final line), the yielded sequence contains zero or
more TokenFrames followed by at most one FinalFrame, and once a
FinalFrame is yielded no further frames follow. -/
theorem c1_stream_invariant (status : Nat) (lines : List String)
    (hsync : ∀ l ∈ lines.dropLast, yieldsFinal decodeLine_sync l = false)
    (hasync : ∀ l ∈ lines.dropLast, yieldsFinal decodeLine_async l = false) :
    noFrameAfterFinal (generate_stream status lines).1 = true ∧
    noFrameAfterFinal (agenerate_stream status lines).1 = true := by
  constructor
  · unfold generate_stream
    by_cases h : status = 200
    · rw [if_pos h]
      exact processLines_wf decodeLine_sync lines hsync
    · rw [if_neg h]
      rfl
  · unfold agenerate_stream
    by_cases h : status = 200
    · rw [if_neg (fun hne => hne h)]
      exact processLines_wf decodeLine_async lines hasync
    · rw [if_pos h]
      rfl

/-- Claim C1, witness: the scenario-A stream — two token lines then one
finish line — satisfies the amended hypothesis and the invariant. -/
theorem c1_stream_invariant_witness :
    (∀ l ∈ ([lineTokHi, lineTokBang, lineFin] : List String).dropLast,
        yieldsFinal decodeLine_sync l = false) ∧
    noFrameAfterFinal (generate_stream 200 [lineTokHi, lineTokBang, lineFin]).1 = true ∧
    noFrameAfterFinal (agenerate_stream 200 [lineTokHi, lineTokBang, lineFin]).1 = true :=
  ⟨by decide, c1_stream_invariant 200 [lineTokHi, lineTokBang, lineFin] (by decide) (by decide)⟩

/-! ## Claim C2 -/

/-- Claim C2, code bug evaluation: the source trims the decoded data
remainder with `rstrip("/n")`, which removes trailing `/` and `n`
characters and does not remove newline characters.  On the line
`data:{"token":{"text":"A"}}n` both decoders therefore parse the
remainder successfully and yield a TokenFrame, although the remainder
with nothing but the marker removed is not valid JSON (it has trailing
data, and it contains no trailing newline for the intended trim to
remove); and `rstrip("/n")` leaves an actual trailing newline in
place. -/
theorem c2_rstrip_bug_eval :
    decodeLine_sync lineTokTrailN = Except.ok (some { token := "A" }) ∧
    decodeLine_async lineTokTrailN = Except.ok (some { token := "A" }) ∧
    jsonLoads (pyRemovePrefixStr lineTokTrailN "data:") = none ∧
    pyRstrip "\x7b\"a\":1\x7d\n" "/n" = "\x7b\"a\":1\x7d\n" :=
  ⟨rfl, rfl, rfl, rfl⟩

/-! ## Claim C3 -/

/-- Claim C3, code bug evaluation: on a non-200 initial status the
blocking path raises the Error Mapper failure for the status and yields
no frame, but the non-blocking path reads the nonexistent
`status_code` attribute of the aiohttp response while building the
`parse_error` call, so it raises an `AttributeError` instead of the
mapped failure (and also yields no frame; decoding never begins in
either path). -/
theorem c3_status_failure_eval :
    generate_stream 404 [lineTokHi] = ([], some (StreamErr.mapped 404)) ∧
    agenerate_stream 404 [lineTokHi] = ([], some (StreamErr.attributeError "status_code")) :=
  ⟨rfl, rfl⟩

/-! ## Claim C4 -/

/-- Claim C4: on a stream whose earlier lines all decode without
failure, a data line whose processed remainder is not valid JSON makes
both paths raise the JSON decode failure at the moment that line is
consumed: the frames of the earlier lines are exactly the ones already
delivered, and no later line is consumed (the result does not depend on
`post`). -/
theorem c4_decode_error_propagates (pre : List String) (bad : String) (post : List String)
    (hs : pyStartswith bad "data:" = true)
    (hj : jsonLoads (pyRstrip (pyRemovePrefixStr bad "data:") "/n") = none)
    (hsync : (processLines decodeLine_sync pre).2 = none)
    (hasync : (processLines decodeLine_async pre).2 = none) :
    generate_stream 200 (pre ++ bad :: post) =
      ((processLines decodeLine_sync pre).1, some StreamErr.jsonDecodeError) ∧
    agenerate_stream 200 (pre ++ bad :: post) =
      ((processLines decodeLine_async pre).1, some StreamErr.jsonDecodeError) := by
  have hbadS : decodeLine_sync bad = Except.error StreamErr.jsonDecodeError :=
    decode_sync_badJson bad hs hj
  have hbadA : decodeLine_async bad = Except.error StreamErr.jsonDecodeError := by
    rw [← decode_paths_eq]
    exact hbadS
  constructor
  · unfold generate_stream
    rw [if_pos rfl]
    rw [processLines_append decodeLine_sync pre (bad :: post) hsync]
    simp [processLines, hbadS]
  · unfold agenerate_stream
    rw [if_neg (fun hne => hne rfl)]
    rw [processLines_append decodeLine_async pre (bad :: post) hasync]
    simp [processLines, hbadA]

/-- Claim C4, witness: scenario C — a good token line, then
`data:{bad json`, then a finish line that is never reached.  The caller
receives the first TokenFrame and then the decode failure. -/
theorem c4_decode_error_witness :
    generate_stream 200 [lineTokHi, lineBadJson, lineFin] =
      ([{ token := "Hi", finish_reason := none, generated_tokens := none }],
        some StreamErr.jsonDecodeError) ∧
    agenerate_stream 200 [lineTokHi, lineBadJson, lineFin] =
      ([{ token := "Hi", finish_reason := none, generated_tokens := none }],
        some StreamErr.jsonDecodeError) := by
  have h := c4_decode_error_propagates [lineTokHi] lineBadJson [lineFin] rfl rfl rfl rfl
  exact ⟨h.1, h.2⟩

/-! ## Claim C5 -/

/-- Claim C5: a response line that does not start with the data marker
produces no frame in either path, and at the stream level such a filler
line is a pure no-op: removing it changes nothing about the frames or
the failure the caller observes. -/
theorem c5_filler_noop (resp_line : String)
    (hs : pyStartswith resp_line "data:" = false) :
    decodeLine_sync resp_line = Except.ok none ∧
    decodeLine_async resp_line = Except.ok none ∧
    (∀ ls, processLines decodeLine_sync (resp_line :: ls) = processLines decodeLine_sync ls) ∧
    (∀ ls, processLines decodeLine_async (resp_line :: ls) = processLines decodeLine_async ls) := by
  have h1 : decodeLine_sync resp_line = Except.ok none := decode_sync_filler resp_line hs
  have h2 : decodeLine_async resp_line = Except.ok none := by
    rw [← decode_paths_eq]
    exact h1
  refine ⟨h1, h2, ?_, ?_⟩
  · intro ls
    simp [processLines, h1]
  · intro ls
    simp [processLines, h2]

/-- Claim C5, witness: the keep-alive line ":" yields no frame and
dropping it leaves the stream unchanged. -/
theorem c5_filler_noop_witness :
    decodeLine_sync ":" = Except.ok none ∧
    decodeLine_async ":" = Except.ok none ∧
    processLines decodeLine_sync [":", lineFin] = processLines decodeLine_sync [lineFin] := by
  have h := c5_filler_noop ":" rfl
  exact ⟨h.1, h.2.1, h.2.2.1 [lineFin]⟩

/-! ## Claim C6 -/

/-- Claim C6: a data line whose payload parses to an object without a
`finishReason` member and with a nested `token.text` string produces in
both paths exactly one TokenFrame whose token text is that nested
string, with `finish_reason` and `generated_tokens` absent. -/
theorem c6_token_frame (resp_line : String) (kvs tkvs : List (String × Json)) (t : String)
    (hs : pyStartswith resp_line "data:" = true)
    (hj : jsonLoads (pyRstrip (pyRemovePrefixStr resp_line "data:") "/n") = some (Json.obj kvs))
    (hfin : kvs.any (fun kv => kv.1 == "finishReason") = false)
    (htok : objLookup kvs "token" = some (Json.obj tkvs))
    (htxt : objLookup tkvs "text" = some (Json.str t)) :
    decodeLine_sync resp_line =
      Except.ok (some { token := t, finish_reason := none, generated_tokens := none }) ∧
    decodeLine_async resp_line =
      Except.ok (some { token := t, finish_reason := none, generated_tokens := none }) := by
  have h1 : decodeLine_sync resp_line =
      Except.ok (some { token := t, finish_reason := none, generated_tokens := none }) := by
    unfold decodeLine_sync
    rw [if_neg (data_line_ne_b resp_line hs)]
    simp [hs, hj, pyContains, hfin, pyGetItem, htok, htxt]
  refine ⟨h1, ?_⟩
  rw [← decode_paths_eq]
  exact h1

/-- Claim C6, witness: the scenario-A token line yields
TokenFrame("Hi") in both paths. -/
theorem c6_token_frame_witness :
    decodeLine_sync lineTokHi =
      Except.ok (some { token := "Hi", finish_reason := none, generated_tokens := none }) ∧
    decodeLine_async lineTokHi =
      Except.ok (some { token := "Hi", finish_reason := none, generated_tokens := none }) :=
  c6_token_frame lineTokHi [("token", Json.obj [("text", Json.str "Hi")])]
    [("text", Json.str "Hi")] "Hi" rfl rfl rfl rfl rfl

/-! ## Claim C7 -/

/-- Claim C7: a data line whose payload parses to an object carrying a
string `finishReason` and an integer `generatedTokens` produces in both
paths exactly one FinalFrame copying both values verbatim, with an
empty token text. -/
theorem c7_final_frame (resp_line : String) (kvs : List (String × Json)) (r : String) (g : Int)
    (hs : pyStartswith resp_line "data:" = true)
    (hj : jsonLoads (pyRstrip (pyRemovePrefixStr resp_line "data:") "/n") = some (Json.obj kvs))
    (hfr : objLookup kvs "finishReason" = some (Json.str r))
    (hgt : objLookup kvs "generatedTokens" = some (Json.num g)) :
    decodeLine_sync resp_line =
      Except.ok (some { token := "", finish_reason := some r, generated_tokens := some g }) ∧
    decodeLine_async resp_line =
      Except.ok (some { token := "", finish_reason := some r, generated_tokens := some g }) := by
  have hfin : kvs.any (fun kv => kv.1 == "finishReason") = true := by
    rw [← objLookup_isSome_eq_any, hfr]
    rfl
  have h1 : decodeLine_sync resp_line =
      Except.ok (some { token := "", finish_reason := some r, generated_tokens := some g }) := by
    unfold decodeLine_sync
    rw [if_neg (data_line_ne_b resp_line hs)]
    simp [hs, hj, pyContains, hfin, pyGetItem, hfr, hgt]
  refine ⟨h1, ?_⟩
  rw [← decode_paths_eq]
  exact h1

/-- Claim C7, witness: the scenario-A finish line yields
FinalFrame("stop", 2) in both paths. -/
theorem c7_final_frame_witness :
    decodeLine_sync lineFin =
      Except.ok (some { token := "", finish_reason := some "stop", generated_tokens := some 2 }) ∧
    decodeLine_async lineFin =
      Except.ok (some { token := "", finish_reason := some "stop", generated_tokens := some 2 }) :=
  c7_final_frame lineFin [("finishReason", Json.str "stop"), ("generatedTokens", Json.num 2)]
    "stop" 2 rfl rfl rfl rfl

/-! ## Claim C9 -/

/-- Claim C9: a data line whose payload parses to an object that has a
`finishReason` member but no `generatedTokens` member makes both paths
raise a `KeyError` for `generatedTokens` instead of producing a frame:
the shape test only checks `finishReason`, and the `generatedTokens`
lookup is unguarded. -/
theorem c9_missing_generated_tokens (resp_line : String) (kvs : List (String × Json))
    (hs : pyStartswith resp_line "data:" = true)
    (hj : jsonLoads (pyRstrip (pyRemovePrefixStr resp_line "data:") "/n") = some (Json.obj kvs))
    (hfin : kvs.any (fun kv => kv.1 == "finishReason") = true)
    (hgt : objLookup kvs "generatedTokens" = none) :
    decodeLine_sync resp_line = Except.error (StreamErr.keyError "generatedTokens") ∧
    decodeLine_async resp_line = Except.error (StreamErr.keyError "generatedTokens") := by
  have hex : (objLookup kvs "finishReason").isSome = true := by
    rw [objLookup_isSome_eq_any, hfin]
  obtain ⟨fr, hfr⟩ := Option.isSome_iff_exists.mp hex
  have h1 : decodeLine_sync resp_line = Except.error (StreamErr.keyError "generatedTokens") := by
    unfold decodeLine_sync
    rw [if_neg (data_line_ne_b resp_line hs)]
    simp [hs, hj, pyContains, hfin, pyGetItem, hfr, hgt]
  refine ⟨h1, ?_⟩
  rw [← decode_paths_eq]
  exact h1

/-- Claim C9, witness: `data:{"finishReason":"stop"}` raises the
missing-key failure in both paths. -/
theorem c9_missing_generated_tokens_witness :
    decodeLine_sync lineFinNoCount = Except.error (StreamErr.keyError "generatedTokens") ∧
    decodeLine_async lineFinNoCount = Except.error (StreamErr.keyError "generatedTokens") :=
  c9_missing_generated_tokens lineFinNoCount [("finishReason", Json.str "stop")] rfl rfl rfl rfl

/-! ## Claim C10 -/

/-- Claim C10: for every decoded response line, the blocking and
non-blocking paths produce the same decode outcome — the same frame, no
frame, or the same failure: the duplicated line-to-frame logic of the
two methods is extensionally equal. -/
theorem c10_paths_agree (resp_line : String) :
    decodeLine_sync resp_line = decodeLine_async resp_line :=
  decode_paths_eq resp_line
